import Mathlib

/-!
Verification of the conversation-state engine and transfer services of the
copperx-telegram-bot repository, as a shallow embedding in Lean 4.

JavaScript numbers are modelled as exact rationals (`ℚ`), with `NaN`
represented by `Option ℚ = none`; every numeric literal appearing in the
claims is exactly representable in an IEEE double, so the rational model
agrees with the JS semantics on all inputs considered here.  String parsing
follows JS `parseFloat` (longest numeric prefix, leading whitespace and sign,
optional fraction and exponent); the model does not produce `Infinity`, which
no value in this code base relies on.
-/

namespace CopperxBot

/-- Digit value of a decimal digit character. -/
def charDigit (c : Char) : ℕ := c.toNat - 48

/-- Numeric value of a list of decimal digit characters (most significant first). -/
def digitsVal (ds : List Char) : ℕ := ds.foldl (fun a c => a * 10 + charDigit c) 0

/-- Exponent digits after `e`/`E`: `none` when there is no digit (JS then ignores
the exponent marker entirely). -/
def expDigits (l : List Char) : Option ℕ :=
  let ds := l.takeWhile Char.isDigit
  if ds.isEmpty then none else some (digitsVal ds)

/-- Optional exponent part of a JS float literal; returns the exponent,
defaulting to `0` when absent or malformed (JS `parseFloat` stops there). -/
def parseExp (l : List Char) : ℤ :=
  match l with
  | 'e' :: rest | 'E' :: rest =>
    match rest with
    | '+' :: r2 => ((expDigits r2).getD 0 : ℤ)
    | '-' :: r2 => match expDigits r2 with
      | some n => -(n : ℤ)
      | none => 0
    | r2 => ((expDigits r2).getD 0 : ℤ)
  | _ => 0

/-- Scale a rational by an integer power of ten. -/
def scalePow10 (q : ℚ) (e : ℤ) : ℚ :=
  if 0 ≤ e then q * (10 : ℚ) ^ e.toNat else q / (10 : ℚ) ^ (-e).toNat

/-- Mantissa-and-exponent part of JS `parseFloat`, after sign and whitespace
have been stripped: digits, optional `.` plus digits, optional exponent.
`none` models `NaN` (no digit at all). -/
def jsParseFloatCore (l : List Char) : Option ℚ :=
  let ints := l.takeWhile Char.isDigit
  let r1 := l.dropWhile Char.isDigit
  let fracs := match r1 with
    | '.' :: rest => rest.takeWhile Char.isDigit
    | _ => []
  let r2 := match r1 with
    | '.' :: rest => rest.dropWhile Char.isDigit
    | _ => r1
  if ints.isEmpty && fracs.isEmpty then none
  else
    let mantissa : ℚ := (digitsVal ints : ℚ) + (digitsVal fracs : ℚ) / (10 : ℚ) ^ fracs.length
    some (scalePow10 mantissa (parseExp r2))

/-- JS `parseFloat` on a string: leading whitespace, optional sign, then the
longest numeric prefix; `none` models `NaN`. -/
def jsParseFloat (s : String) : Option ℚ :=
  let l := s.data.dropWhile (fun c => c = ' ' ∨ c = '\t' ∨ c = '\n' ∨ c = '\r')
  match l with
  | '-' :: rest => (jsParseFloatCore rest).map (fun q => -q)
  | '+' :: rest => jsParseFloatCore rest
  | _ => jsParseFloatCore l

/-- JS `a >= b` on possibly-NaN numbers: any comparison with NaN is false. -/
def jsGe (a b : Option ℚ) : Bool :=
  match a, b with
  | some x, some y => x ≥ y
  | _, _ => false

/-- JS `a < b` where `a` may be NaN and `b` is a plain number. -/
def jsLt (a : Option ℚ) (b : ℚ) : Bool :=
  match a with
  | some x => x < b
  | none => false

/-- JS `a > b` where `a` may be NaN and `b` is a plain number. -/
def jsGt (a : Option ℚ) (b : ℚ) : Bool :=
  match a with
  | some x => x > b
  | none => false

/-- JS `x + fee` where `x` may be NaN: NaN propagates. -/
def jsAdd (a : Option ℚ) (fee : ℚ) : Option ℚ := a.map (fun x => x + fee)

/-- JS `v || d` on numbers (`0` and missing are falsy and fall through to `d`),
as used for the per-network fee / minimum lookup tables. -/
def jsNumOr (v : Option ℚ) (d : ℚ) : ℚ :=
  match v with
  | some x => if x = 0 then d else x
  | none => d

end CopperxBot

namespace CopperxBot

/-- Conversation states, from the `ConversationState` enum in
`src/utils/conversation.ts`. -/
inductive ConversationState where
  | IDLE
  | WAITING_FOR_EMAIL
  | WAITING_FOR_OTP
  | WAITING_FOR_RECIPIENT_EMAIL
  | WAITING_FOR_SEND_AMOUNT
  | WAITING_FOR_SEND_CONFIRMATION
  | WAITING_FOR_WALLET_ADDRESS
  | WAITING_FOR_WALLET_NETWORK
  | WAITING_FOR_WALLET_AMOUNT
  | WAITING_FOR_WALLET_CONFIRMATION
  | WAITING_FOR_BANK_ACCOUNT
  | WAITING_FOR_BANK_AMOUNT
  | WAITING_FOR_BANK_CONFIRMATION
  | WAITING_FOR_DEFAULT_WALLET
  | WAITING_FOR_EXTERNAL_WALLET
  | WAITING_FOR_EXTERNAL_WALLET_NETWORK
  | WAITING_FOR_EXTERNAL_WALLET_AMOUNT
  | WAITING_FOR_EXTERNAL_WALLET_CONFIRMATION
  | WAITING_FOR_WITHDRAWAL_FINAL_CONFIRMATION
deriving DecidableEq, Repr

/-- The `TransactionContext` record accumulated during a flow
(`src/utils/conversation.ts`); absent fields are `none`. -/
structure TransactionContext where
  recipientEmail : Option String := none
  amount : Option String := none
  walletAddress : Option String := none
  network : Option String := none
  bankAccountId : Option String := none
  walletId : Option String := none
  externalWalletAddress : Option String := none
deriving DecidableEq, Repr

/-- The `ConversationManager`'s two maps (`states`, `contexts`), keyed by chat
id; `none` models a key that is absent from the JS `Map`. -/
structure ConversationManager where
  states : ℤ → Option ConversationState
  contexts : ℤ → Option TransactionContext

namespace ConversationManager

/-- `getState`: the stored state, or `IDLE` when the chat is unknown. -/
def getState (cm : ConversationManager) (chatId : ℤ) : ConversationState :=
  (cm.states chatId).getD .IDLE

/-- `setState`: overwrite the chat's state. -/
def setState (cm : ConversationManager) (chatId : ℤ) (s : ConversationState) :
    ConversationManager :=
  { cm with states := fun c => if c = chatId then some s else cm.states c }

/-- `getContext`: the stored context, or the empty record when unknown. -/
def getContext (cm : ConversationManager) (chatId : ℤ) : TransactionContext :=
  (cm.contexts chatId).getD {}

/-- `setContext`: overwrite the chat's context. -/
def setContext (cm : ConversationManager) (chatId : ℤ) (ctx : TransactionContext) :
    ConversationManager :=
  { cm with contexts := fun c => if c = chatId then some ctx else cm.contexts c }

/-- `clearChat`: delete both state and context. -/
def clearChat (cm : ConversationManager) (chatId : ℤ) : ConversationManager :=
  { states := fun c => if c = chatId then none else cm.states c,
    contexts := fun c => if c = chatId then none else cm.contexts c }

/-- `resetState`: set the state to `IDLE`; the contexts map is untouched. -/
def resetState (cm : ConversationManager) (chatId : ℤ) : ConversationManager :=
  cm.setState chatId .IDLE

end ConversationManager

/-- Per-network table of a fee structure (`WALLET_TRANSFER`): the declared
`SOLANA`/`ETHEREUM` fields plus the index signature for other networks.
Lookups use JS `table[key] || table.SOLANA`, so a missing or zero entry falls
back to the SOLANA value. -/
structure NetworkTable where
  entries : List (String × ℚ)
deriving DecidableEq, Repr

/-- `table[key]` for a per-network table. -/
def NetworkTable.get (t : NetworkTable) (key : String) : Option ℚ :=
  (t.entries.find? (fun p => p.1 = key)).map Prod.snd

/-- `table.SOLANA`, defaulting to `0` if even that key is absent (JS would
yield `undefined`; the defaults below always carry a SOLANA entry). -/
def NetworkTable.solana (t : NetworkTable) : ℚ := jsNumOr (t.get "SOLANA") 0

/-- `fees.WALLET_TRANSFER[normalizedNetwork] || fees.WALLET_TRANSFER.SOLANA`. -/
def NetworkTable.lookup (t : NetworkTable) (key : String) : ℚ :=
  jsNumOr (t.get key) t.solana

/-- The `FeeStructure` / `MinimumAmounts` shape of `fee.service.ts`. -/
structure FeeTable where
  EMAIL_TRANSFER : ℚ
  WALLET_TRANSFER : NetworkTable
  BANK_TRANSFER : ℚ
deriving DecidableEq, Repr

/-- `DEFAULT_FEES` fallback table. -/
def DEFAULT_FEES : FeeTable :=
  { EMAIL_TRANSFER := 1 / 10,
    WALLET_TRANSFER := ⟨[("SOLANA", 1 / 5), ("ETHEREUM", 3 / 2)]⟩,
    BANK_TRANSFER := 5 }

/-- `DEFAULT_MIN_AMOUNTS` fallback table. -/
def DEFAULT_MIN_AMOUNTS : FeeTable :=
  { EMAIL_TRANSFER := 1,
    WALLET_TRANSFER := ⟨[("SOLANA", 5), ("ETHEREUM", 20)]⟩,
    BANK_TRANSFER := 50 }

/-- Transfer types accepted by the fee and wallet services. -/
inductive TransferType where
  | email
  | wallet
  | bank
deriving DecidableEq, Repr

/-- `toUpperCase` (ASCII, which covers every string this code upcases). -/
def jsToUpper (s : String) : String := ⟨s.data.map Char.toUpper⟩

/-- JS `String.prototype.trim`: strip whitespace from both ends. -/
def jsTrim (s : String) : String :=
  ⟨((s.data.dropWhile Char.isWhitespace).reverse.dropWhile Char.isWhitespace).reverse⟩

/-- JS `s.includes(c)` for a single character. -/
def jsContainsChar (s : String) (c : Char) : Bool := s.data.contains c

/-- `validateMinimumAmount` of `fee.service.ts`, with the minimum-amount table
(the API-fetched structure or the local fallback) passed explicitly.  A NaN
amount compares false against every minimum and is therefore reported valid,
exactly as in the JS source. -/
def validateMinimumAmount (minimums : FeeTable) (amount : String)
    (transferType : TransferType) (network : Option String) :
    Bool × Option ℚ :=
  let amountNum := jsParseFloat amount
  match transferType, network with
  | .email, _ =>
    if jsLt amountNum minimums.EMAIL_TRANSFER then (false, some minimums.EMAIL_TRANSFER)
    else (true, none)
  | .wallet, some net =>
    if net = "" then (true, none)
    else
      let minAmount := minimums.WALLET_TRANSFER.lookup (jsToUpper net)
      if jsLt amountNum minAmount then (false, some minAmount) else (true, none)
  | .wallet, none => (true, none)
  | .bank, _ =>
    if jsLt amountNum minimums.BANK_TRANSFER then (false, some minimums.BANK_TRANSFER)
    else (true, none)

/-- `calculateFeeLocally` of `fee.service.ts`: the flat fee drawn from the fee
table (the computed `totalAmount`/`feePercentage` are not used by any caller
that feeds a decision, so only the fee itself is returned). -/
def calculateFeeLocally (fees : FeeTable) (transferType : TransferType)
    (network : Option String) : ℚ :=
  match transferType, network with
  | .email, _ => fees.EMAIL_TRANSFER
  | .wallet, some net =>
    if net = "" then 0 else fees.WALLET_TRANSFER.lookup (jsToUpper net)
  | .wallet, none => 0
  | .bank, _ => fees.BANK_TRANSFER

/-- One wallet entry of the `/api/wallets/balances` response: the fields
`checkBalance` reads. -/
structure WalletBalance where
  balance : String
  isDefault : Bool
deriving DecidableEq, Repr

/-- The environment a service call runs in: the session state and the
responses of the external API, which the embedding treats as oracles. -/
structure Env where
  /-- `authService.isAuthenticated(chatId)` -/
  authenticated : Bool := true
  /-- the session carries a non-empty token -/
  hasToken : Bool := true
  /-- response of `POST /api/transfers/fee`; `none` means the call failed and
  the local fallback calculation is used -/
  apiFee : Option ℚ := none
  /-- the fee structure `getFeeStructure` returns (API-fetched or default) -/
  fees : FeeTable := DEFAULT_FEES
  /-- the minimum table `getMinimumAmounts` returns (API-fetched or default) -/
  minimums : FeeTable := DEFAULT_MIN_AMOUNTS
  /-- `getSupportedNetworks`: the API list or the hardcoded fallback -/
  supportedNetworks : List String := ["SOLANA", "ETHEREUM"]
  /-- `getBalances(chatId)`: `none` models the `null` returned on error -/
  balances : Option (List WalletBalance) := none
  /-- whether `POST` of the actual transfer returns a data payload -/
  apiTransferOk : Bool := true
  /-- `authService.requestOTP(email, chatId)` -/
  otpRequestOk : Bool := true
  /-- `authService.authenticateWithOTP(otp, chatId)`: `some email` on success -/
  authUser : String → Option String := fun _ => none

/-- `feeService.calculateFee`: uses the `/api/transfers/fee` response when a
chat id is supplied and the user is authenticated with a token, otherwise the
local fallback table. -/
def calculateFee (env : Env) (transferType : TransferType)
    (network : Option String) (chatId : Option ℤ) : ℚ :=
  match chatId with
  | some _ =>
    if env.authenticated && env.hasToken then
      match env.apiFee with
      | some fee => fee
      | none => calculateFeeLocally env.fees transferType network
    else calculateFeeLocally env.fees transferType network
  | none => calculateFeeLocally env.fees transferType network

/-- Result record of `checkBalance`. -/
structure BalanceCheck where
  sufficient : Bool
  availableBalance : Option String
deriving DecidableEq, Repr

/-- The body of `checkBalance` after the amount string has been parsed:
empty or missing balances yield `'0'` available; otherwise the default
wallet (or the first one) alone is compared. -/
def checkBalanceCore (balances : Option (List WalletBalance))
    (amountToCheck : Option ℚ) : BalanceCheck :=
  match balances with
  | none => { sufficient := false, availableBalance := some "0" }
  | some [] => { sufficient := false, availableBalance := some "0" }
  | some (b :: bs) =>
    let defaultWallet := ((b :: bs).find? (fun w => w.isDefault)).getD b
    { sufficient := jsGe (jsParseFloat defaultWallet.balance) amountToCheck,
      availableBalance := some defaultWallet.balance }

/-- `walletService.checkBalance(chatId, amount, includesFee)`.  The source
computes `includesFee ? parseFloat(amount) : parseFloat(amount)` — both
branches are identical — and then defers to the core comparison. -/
def checkBalance (env : Env) (amount : String) (includesFee : Bool) : BalanceCheck :=
  let amountToCheck := if includesFee then jsParseFloat amount else jsParseFloat amount
  checkBalanceCore env.balances amountToCheck

/-- Failure modes of the three transfer executions, in the order the source
raises them. -/
inductive TransferError where
  | notAuthenticated
  | unsupportedNetwork (network : String)
  | invalidAddress
  | belowMinimum (minimumAmount : Option ℚ)
  | insufficientBalance (available : Option String) (required : Option ℚ)
  | invalidSession
  | apiFailed
deriving DecidableEq, Repr

/-- Characters allowed in a base58 Solana address
(`[A-HJ-NP-Za-km-z1-9]`). -/
def isBase58Char (c : Char) : Bool :=
  ('A' ≤ c ∧ c ≤ 'H') ∨ ('J' ≤ c ∧ c ≤ 'N') ∨ ('P' ≤ c ∧ c ≤ 'Z') ∨
  ('a' ≤ c ∧ c ≤ 'k') ∨ ('m' ≤ c ∧ c ≤ 'z') ∨ ('1' ≤ c ∧ c ≤ '9')

/-- `/^[A-HJ-NP-Za-km-z1-9]{32,44}$/` -/
def solanaAddressOk (s : String) : Bool :=
  32 ≤ s.length ∧ s.length ≤ 44 ∧ s.data.all isBase58Char

/-- `/^0x[a-fA-F0-9]{40}$/` -/
def ethereumAddressOk (s : String) : Bool :=
  match s.data with
  | '0' :: 'x' :: rest =>
    rest.length = 40 ∧
      rest.all (fun c => c.isDigit ∨ ('a' ≤ c ∧ c ≤ 'f') ∨ ('A' ≤ c ∧ c ≤ 'F'))
  | _ => false

/-- `walletService.validateNetwork` (with a chat id, so the supported list
comes from `getSupportedNetworks`). -/
def validateNetwork (env : Env) (network : String) : Bool :=
  env.supportedNetworks.contains (jsToUpper network)

/-- `walletService.sendFundsToEmail(chatId, email, amount)`: minimum check,
fee, fee-inclusive balance check, then the API call.  `.ok` means the API
request was issued and returned data. -/
def sendFundsToEmail (env : Env) (chatId : ℤ) (_email : String) (amount : String) :
    Except TransferError Unit :=
  if ¬ env.authenticated then .error .notAuthenticated
  else
    let validation := validateMinimumAmount env.minimums amount .email none
    if ¬ validation.1 then .error (.belowMinimum validation.2)
    else
      let fee := calculateFee env .email none (some chatId)
      let totalAmount := jsAdd (jsParseFloat amount) fee
      let balanceCheck := checkBalanceCore env.balances totalAmount
      if ¬ balanceCheck.sufficient then
        .error (.insufficientBalance balanceCheck.availableBalance totalAmount)
      else if ¬ env.hasToken then .error .invalidSession
      else if env.apiTransferOk then .ok () else .error .apiFailed

/-- `walletService.sendFundsToWallet(chatId, address, network, amount)`:
network validation, per-network address validation, minimum check, fee,
fee-inclusive balance check, then the API call. -/
def sendFundsToWallet (env : Env) (chatId : ℤ) (address : String)
    (network : String) (amount : String) : Except TransferError Unit :=
  if ¬ env.authenticated then .error .notAuthenticated
  else
    let normalizedNetwork := jsToUpper network
    if ¬ validateNetwork env normalizedNetwork then .error (.unsupportedNetwork network)
    else if normalizedNetwork = "SOLANA" ∧ ¬ solanaAddressOk address then .error .invalidAddress
    else if normalizedNetwork = "ETHEREUM" ∧ ¬ ethereumAddressOk address then .error .invalidAddress
    else
      let validation := validateMinimumAmount env.minimums amount .wallet (some normalizedNetwork)
      if ¬ validation.1 then .error (.belowMinimum validation.2)
      else
        let fee := calculateFee env .wallet (some normalizedNetwork) (some chatId)
        let totalAmount := jsAdd (jsParseFloat amount) fee
        let balanceCheck := checkBalanceCore env.balances totalAmount
        if ¬ balanceCheck.sufficient then
          .error (.insufficientBalance balanceCheck.availableBalance totalAmount)
        else if ¬ env.hasToken then .error .invalidSession
        else if env.apiTransferOk then .ok () else .error .apiFailed

/-- `walletService.withdrawToBank(chatId, bankAccountId, amount)`: minimum
check, fee, fee-inclusive balance check, then the API call. -/
def withdrawToBank (env : Env) (chatId : ℤ) (_bankAccountId : String)
    (amount : String) : Except TransferError Unit :=
  if ¬ env.authenticated then .error .notAuthenticated
  else
    let validation := validateMinimumAmount env.minimums amount .bank none
    if ¬ validation.1 then .error (.belowMinimum validation.2)
    else
      let fee := calculateFee env .bank none (some chatId)
      let totalAmount := jsAdd (jsParseFloat amount) fee
      let balanceCheck := checkBalanceCore env.balances totalAmount
      if ¬ balanceCheck.sufficient then
        .error (.insufficientBalance balanceCheck.availableBalance totalAmount)
      else if ¬ env.hasToken then .error .invalidSession
      else if env.apiTransferOk then .ok () else .error .apiFailed

/-- JS truthiness of an optional string field: `undefined` and `""` are both
falsy. -/
def strTruthy : Option String → Option String
  | some s => if s = "" then none else some s
  | none => none

/-- `isNaN(parseFloat(a)) || parseFloat(a) <= 0` -/
def jsNanOrNonPos (a : Option ℚ) : Bool :=
  match a with
  | none => true
  | some v => v ≤ 0

/-- JS `a < b` where either side may be NaN. -/
def jsLtOO (a b : Option ℚ) : Bool :=
  match a, b with
  | some x, some y => x < y
  | _, _ => false

/-- `balances.reduce((sum, w) => sum + parseFloat(w.balance), 0)`;
an unparseable balance makes the whole sum NaN. -/
def jsSumBalances (l : List WalletBalance) : Option ℚ :=
  l.foldl (fun acc w =>
    match acc, jsParseFloat w.balance with
    | some a, some b => some (a + b)
    | _, _ => none) (some 0)

/-- `/^[^\s@]+@[^\s@]+\.[^\s@]+$/`: no whitespace or extra `@` anywhere, a
non-empty local part, and a dot strictly inside the domain part. -/
def noSpaceNoAt (c : Char) : Bool := ¬ c.isWhitespace ∧ c ≠ '@'

/-- Split a character list at every occurrence of `c`. -/
def splitOnChar (c : Char) (l : List Char) : List (List Char) :=
  l.foldr (fun x acc =>
    match acc with
    | cur :: rest => if x = c then [] :: cur :: rest else (x :: cur) :: rest
    | [] => [[x]]) [[]]

/-- The recipient-email regex of `send.handlers.ts`: the string matches iff it
is `local@domain` with exactly one `@`, a non-empty whitespace-free local
part, a whitespace-free domain, and a `.` strictly inside the domain. -/
def emailRegexOk (s : String) : Bool :=
  match splitOnChar '@' s.data with
  | [a, b] =>
    ¬ a.isEmpty ∧ a.all noSpaceNoAt ∧ b.all noSpaceNoAt ∧
    ((b.drop 1).dropLast.contains '.')
  | _ => false

/-- The decisive chat reply a step handler produces on each execution path
(every early return and every success path of the source sends exactly one
such message; progress and advisory messages around it are not modelled). -/
inductive Reply where
  | invalidEmail
  | invalidEmailFormat
  | otpSent
  | otpRequestFailed
  | nonNumericOtp
  | loginSuccess (email : String)
  | invalidOtp
  | enterAmountPrompt (recipient : String)
  | invalidAmount
  | amountTooHigh
  | missingContext
  | belowMinimum (minimumAmount : Option ℚ)
  | confirmationShown
  | invalidWalletAddress
  | selectNetworkPrompt
  | invalidAddressShort
  | noBalances
  | insufficientFunds (totalBalance : Option ℚ)
  | insufficientTotal (totalBalance required : Option ℚ)
  | withdrawalSuccess
  | withdrawalFailed
  | transactionSuccess
  | transactionFailed
  | cancelled
  | typeConfirmPrompt
  | genericOperationError
  | didNotUnderstand
deriving DecidableEq, Repr

/-- An invocation of `sendFundsToWallet`, recorded with the values each of
the service's declared parameters receives. -/
structure TransferCall where
  chatId : ℤ
  address : String
  network : String
  amount : String
deriving DecidableEq, Repr

/-- Outcome of one step-handler run: the state the handler finally set
(`none` when it never called `setState`/`resetState`), the resulting context,
the decisive reply, and the transfer invocation if one was made. -/
structure StepResult where
  state : Option ConversationState := none
  ctx : TransactionContext
  reply : Reply
  call : Option TransferCall := none
deriving DecidableEq, Repr

/-- `handleEmailInput` (`auth.handlers.ts`). -/
def handleEmailInput (env : Env) (ctx : TransactionContext) (text : String) : StepResult :=
  let email := jsTrim text
  if ¬ jsContainsChar email '@' then { ctx := ctx, reply := .invalidEmail }
  else if env.otpRequestOk then
    { state := some .WAITING_FOR_OTP, ctx := ctx, reply := .otpSent }
  else { state := some .IDLE, ctx := ctx, reply := .otpRequestFailed }

/-- `handleOtpInput` (`auth.handlers.ts`). -/
def handleOtpInput (env : Env) (ctx : TransactionContext) (text : String) : StepResult :=
  let otp := jsTrim text
  if ¬ (otp ≠ "" ∧ otp.data.all Char.isDigit) then { ctx := ctx, reply := .nonNumericOtp }
  else
    match env.authUser otp with
    | some email => { state := some .IDLE, ctx := ctx, reply := .loginSuccess email }
    | none => { ctx := ctx, reply := .invalidOtp }

/-- `handleRecipientEmailInput` (`send.handlers.ts`). -/
def handleRecipientEmailInput (_env : Env) (ctx : TransactionContext) (text : String) :
    StepResult :=
  let recipientEmail := jsTrim text
  if ¬ jsContainsChar recipientEmail '@' then { ctx := ctx, reply := .invalidEmail }
  else if ¬ emailRegexOk recipientEmail then { ctx := ctx, reply := .invalidEmailFormat }
  else
    { state := some .WAITING_FOR_SEND_AMOUNT,
      ctx := { ctx with recipientEmail := some recipientEmail },
      reply := .enterAmountPrompt recipientEmail }

/-- `handleSendAmountInput` (`send.handlers.ts`): format and ceiling checks,
context check, then the minimum-amount check; the fee is computed (without a
chat id, hence from the local fallback table) only for display in the
confirmation message. -/
def handleSendAmountInput (env : Env) (ctx : TransactionContext) (text : String) :
    StepResult :=
  let amount := jsTrim text
  if jsNanOrNonPos (jsParseFloat amount) then { ctx := ctx, reply := .invalidAmount }
  else if jsGt (jsParseFloat amount) 10000 then { ctx := ctx, reply := .amountTooHigh }
  else
    match strTruthy ctx.recipientEmail with
    | none => { state := some .IDLE, ctx := ctx, reply := .missingContext }
    | some _ =>
      let validation := validateMinimumAmount env.minimums amount .email none
      if ¬ validation.1 then { ctx := ctx, reply := .belowMinimum validation.2 }
      else
        { state := some .WAITING_FOR_SEND_CONFIRMATION,
          ctx := { ctx with amount := some amount },
          reply := .confirmationShown }

/-- `handleWalletAddressInput` (`wallet.handlers.ts`). -/
def handleWalletAddressInput (_env : Env) (ctx : TransactionContext) (text : String) :
    StepResult :=
  let walletAddress := jsTrim text
  if walletAddress.length < 30 ∨ walletAddress.length > 50 then
    { ctx := ctx, reply := .invalidWalletAddress }
  else
    { state := some .WAITING_FOR_WALLET_NETWORK,
      ctx := { ctx with walletAddress := some walletAddress },
      reply := .selectNetworkPrompt }

/-- `handleWalletAmountInput` (`wallet.handlers.ts`). -/
def handleWalletAmountInput (env : Env) (ctx : TransactionContext) (text : String) :
    StepResult :=
  let amount := jsTrim text
  if jsNanOrNonPos (jsParseFloat amount) then { ctx := ctx, reply := .invalidAmount }
  else if jsGt (jsParseFloat amount) 10000 then { ctx := ctx, reply := .amountTooHigh }
  else
    match strTruthy ctx.walletAddress, strTruthy ctx.network with
    | some _, some network =>
      let validation := validateMinimumAmount env.minimums amount .wallet (some network)
      if ¬ validation.1 then { ctx := ctx, reply := .belowMinimum validation.2 }
      else
        { state := some .WAITING_FOR_WALLET_CONFIRMATION,
          ctx := { ctx with amount := some amount },
          reply := .confirmationShown }
    | _, _ => { state := some .IDLE, ctx := ctx, reply := .missingContext }

/-- `handleExternalWalletInput` (`wallet.handlers.ts`). -/
def handleExternalWalletInput (_env : Env) (ctx : TransactionContext) (text : String) :
    StepResult :=
  let walletAddress := jsTrim text
  if walletAddress.length < 10 then { ctx := ctx, reply := .invalidAddressShort }
  else
    { state := some .WAITING_FOR_EXTERNAL_WALLET_NETWORK,
      ctx := { ctx with externalWalletAddress := some walletAddress },
      reply := .selectNetworkPrompt }

/-- `handleExternalWalletAmountInput` (`wallet.handlers.ts`): format check,
context check, then — before the minimum-amount validation — a comparison of
the summed balances against the amount, then the minimum check, then the
fee-inclusive total-balance comparison. -/
def handleExternalWalletAmountInput (env : Env) (ctx : TransactionContext)
    (text : String) : StepResult :=
  let amount := jsTrim text
  if jsNanOrNonPos (jsParseFloat amount) then { ctx := ctx, reply := .invalidAmount }
  else
    match strTruthy ctx.externalWalletAddress, strTruthy ctx.network with
    | some _, some network =>
      match env.balances with
      | none => { state := some .IDLE, ctx := ctx, reply := .noBalances }
      | some [] => { state := some .IDLE, ctx := ctx, reply := .noBalances }
      | some (b :: bs) =>
        let totalBalance := jsSumBalances (b :: bs)
        if jsLtOO totalBalance (jsParseFloat amount) then
          { ctx := ctx, reply := .insufficientFunds totalBalance }
        else
          let validation := validateMinimumAmount env.minimums amount .wallet (some network)
          if ¬ validation.1 then { ctx := ctx, reply := .belowMinimum validation.2 }
          else
            let fee := calculateFee env .wallet (some network) none
            let totalAmount := jsAdd (jsParseFloat amount) fee
            if jsLtOO totalBalance totalAmount then
              { ctx := ctx, reply := .insufficientTotal totalBalance totalAmount }
            else
              { state := some .WAITING_FOR_EXTERNAL_WALLET_CONFIRMATION,
                ctx := { ctx with amount := some amount },
                reply := .confirmationShown }
    | _, _ => { state := some .IDLE, ctx := ctx, reply := .missingContext }

/-- `handleWithdrawalFinalConfirmation` (`wallet.handlers.ts`): the typed
CONFIRM/CANCEL gate.  On CONFIRM the source calls
`sendFundsToWallet(chatId, context.externalWalletAddress, context.amount,
context.network)`, so the service's `network` parameter receives the stored
amount and its `amount` parameter receives the stored network. -/
def handleWithdrawalFinalConfirmation (env : Env) (chatId : ℤ)
    (ctx : TransactionContext) (text : String) : StepResult :=
  let confirmation := jsToUpper (jsTrim text)
  if confirmation = "CONFIRM" then
    match strTruthy ctx.externalWalletAddress, strTruthy ctx.amount,
        strTruthy ctx.network with
    | some addr, some amt, some net =>
      let call : TransferCall := { chatId := chatId, address := addr, network := amt, amount := net }
      match sendFundsToWallet env chatId addr amt net with
      | .ok _ =>
        { state := some .IDLE, ctx := ctx, reply := .withdrawalSuccess, call := some call }
      | .error _ =>
        { state := some .IDLE, ctx := ctx, reply := .withdrawalFailed, call := some call }
    | _, _, _ => { state := some .IDLE, ctx := ctx, reply := .missingContext }
  else if confirmation = "CANCEL" then
    { state := some .IDLE, ctx := ctx, reply := .cancelled }
  else { ctx := ctx, reply := .typeConfirmPrompt }

/-- `handleWalletSendConfirmation` (`wallet.actions.ts`), triggered by the
`confirm_wallet_send` button.  The source calls
`sendFundsToWallet(chatId, context.walletAddress, context.amount,
context.network)`, again binding the stored amount to the service's `network`
parameter and the stored network to its `amount` parameter. -/
def handleWalletSendConfirmation (env : Env) (chatId : ℤ)
    (ctx : TransactionContext) : StepResult :=
  match strTruthy ctx.walletAddress, strTruthy ctx.amount, strTruthy ctx.network with
  | some addr, some amt, some net =>
    let call : TransferCall := { chatId := chatId, address := addr, network := amt, amount := net }
    match sendFundsToWallet env chatId addr amt net with
    | .ok _ =>
      { state := some .IDLE, ctx := ctx, reply := .transactionSuccess, call := some call }
    | .error _ =>
      { state := some .IDLE, ctx := ctx, reply := .transactionFailed, call := some call }
  | _, _, _ => { state := some .IDLE, ctx := ctx, reply := .missingContext }

/-- The `handlerRegistry` of `conversation.middleware.ts`: text handlers per
state; states not listed have no text handler. -/
def registeredHandler (s : ConversationState) :
    Option (Env → ℤ → TransactionContext → String → StepResult) :=
  match s with
  | .WAITING_FOR_EMAIL => some fun env _ ctx text => handleEmailInput env ctx text
  | .WAITING_FOR_OTP => some fun env _ ctx text => handleOtpInput env ctx text
  | .WAITING_FOR_RECIPIENT_EMAIL => some fun env _ ctx text => handleRecipientEmailInput env ctx text
  | .WAITING_FOR_SEND_AMOUNT => some fun env _ ctx text => handleSendAmountInput env ctx text
  | .WAITING_FOR_WALLET_ADDRESS => some fun env _ ctx text => handleWalletAddressInput env ctx text
  | .WAITING_FOR_WALLET_AMOUNT => some fun env _ ctx text => handleWalletAmountInput env ctx text
  | .WAITING_FOR_EXTERNAL_WALLET => some fun env _ ctx text => handleExternalWalletInput env ctx text
  | .WAITING_FOR_EXTERNAL_WALLET_AMOUNT => some fun env _ ctx text => handleExternalWalletAmountInput env ctx text
  | .WAITING_FOR_WITHDRAWAL_FINAL_CONFIRMATION => some handleWithdrawalFinalConfirmation
  | _ => none

/-- The state-dispatch core of `conversationMiddleware` for a free-text,
non-command message: run the registered handler for the current state, or
reset a stuck non-idle state, or fall back to the "I didn't understand"
reply when idle. -/
def dispatchText (env : Env) (cm : ConversationManager) (chatId : ℤ)
    (text : String) : ConversationManager × Reply :=
  let state := cm.getState chatId
  match registeredHandler state with
  | some h =>
    let r := h env chatId (cm.getContext chatId) text
    let cm1 := cm.setContext chatId r.ctx
    let cm2 := match r.state with
      | some s => cm1.setState chatId s
      | none => cm1
    (cm2, r.reply)
  | none =>
    if state ≠ .IDLE then (cm.resetState chatId, .genericOperationError)
    else (cm, .didNotUnderstand)

/-! ### HTTP client retry policy (`api.service.ts`) -/

/-- Failure of an HTTP attempt: either no response at all (network error or
timeout) or a response with a status code. -/
inductive HttpFailure where
  | network
  | status (code : ℕ)
deriving DecidableEq, Repr

/-- `shouldRetry` of `api.service.ts`. -/
def shouldRetry : HttpFailure → Bool
  | .network => true
  | .status code => code = 429 ∨ (500 ≤ code ∧ code < 600)

/-- `maxRetries` of `api.service.ts`. -/
def maxRetries : ℕ := 3

/-- The response interceptor's retry loop.  `outcomes k` is the result of the
attempt carrying `__retryCount = k` (the initial request has `k = 0`).  On a
failure the count is incremented; if the failure is retryable and the new
count is within `maxRetries`, the client sleeps `2 ^ newCount * 1000` ms and
reissues the request, otherwise it rejects.  Returns the final result and the
list of backoff delays used.  `fuel` only bounds the recursion; with
`fuel ≥ maxRetries - k` it never runs out. -/
def interceptorRun (outcomes : ℕ → Except HttpFailure Unit) (k fuel : ℕ) :
    Except HttpFailure Unit × List ℕ :=
  match outcomes k with
  | .ok a => (.ok a, [])
  | .error e =>
    if shouldRetry e ∧ k + 1 ≤ maxRetries then
      match fuel with
      | 0 => (.error e, [])
      | fuel' + 1 =>
        let rest := interceptorRun outcomes (k + 1) fuel'
        (rest.1, (2 ^ (k + 1) * 1000) :: rest.2)
    else (.error e, [])

/-- A full request through the interceptor: initial attempt with retry count
`0` and enough fuel for all allowed retries. -/
def apiRequest (outcomes : ℕ → Except HttpFailure Unit) :
    Except HttpFailure Unit × List ℕ :=
  interceptorRun outcomes 0 maxRetries

/-! ### Deposit notification fan-out (`notification.service.ts`) -/

/-- One entry of `orgToUserMapping`: a chat mapped to an organization, with
the timestamp of its last delivered notification. -/
structure NotifUser where
  chatId : ℤ
  org : String
  lastNotified : Option ℤ
deriving DecidableEq, Repr

/-- The rate-limit test of `handleDepositNotification`:
`user.lastNotified && now - user.lastNotified < minInterval`. -/
def rateLimited (u : NotifUser) (now : ℤ) : Bool :=
  match u.lastNotified with
  | some t => now - t < 5000
  | none => false

/-- Whether one deposit event for `org` notifies user `u`: the user is in the
organization's mapping and not rate-limited. -/
def depositTarget (org : String) (now : ℤ) (u : NotifUser) : Bool :=
  u.org == org && !(rateLimited u now)

/-- The per-user effect of one deposit event: users of the event's
organization that are not rate-limited get notified and their
`lastNotified` updated. -/
def notifyUser (org : String) (now : ℤ) (u : NotifUser) : NotifUser :=
  if depositTarget org now u then { u with lastNotified := some now } else u

/-- `handleDepositNotification`: the updated mapping and the chat ids the
notification was sent to. -/
def handleDeposit (users : List NotifUser) (org : String) (now : ℤ) :
    List NotifUser × List ℤ :=
  (users.map (notifyUser org now),
   (users.filter (depositTarget org now)).map (fun u => u.chatId))

/-- Process a sequence of deposit events `(organizationId, time)`, collecting
every `(chatId, time)` notification sent. -/
def runDeposits (users : List NotifUser) : List (String × ℤ) → List (ℤ × ℤ)
  | [] => []
  | (org, t) :: evs =>
    ((handleDeposit users org t).2.map (fun c => (c, t))) ++
      runDeposits (handleDeposit users org t).1 evs

/-- The times chat `c` is notified at, across a trace of deposit events. -/
def sendTimesFor (c : ℤ) (users : List NotifUser) (evs : List (String × ℤ)) :
    List ℤ :=
  ((runDeposits users evs).filter (fun p => p.1 = c)).map Prod.snd

/-- Environment for the C2 instances: one default wallet holding 100 USDC,
authenticated session, and the fee endpoint quoting the given flat fee. -/
def envFee (fee : ℚ) : Env :=
  { balances := some [{ balance := "100", isDefault := true }], apiFee := some fee }

/-- A well-formed Ethereum address (40 hex digits after `0x`). -/
def ethAddr : String := "0xabcdefabcdefabcdefabcdefabcdefabcdefabcd"

/-- Context of a completed external-wallet withdrawal flow: address stored,
network `solana` chosen, amount `50` entered. -/
def ctxWithdrawal : TransactionContext :=
  { externalWalletAddress := some ethAddr, network := some "solana", amount := some "50" }

/-- Context of a completed wallet-send flow with the same data. -/
def ctxWalletSend : TransactionContext :=
  { walletAddress := some ethAddr, network := some "solana", amount := some "50" }

/-- Environment with one large default wallet, for exercising the
external-withdrawal amount step. -/
def envRich : Env := { balances := some [{ balance := "100000", isDefault := true }] }

/-- Environment whose only wallet holds 2 USDC. -/
def envPoor : Env := { balances := some [{ balance := "2", isDefault := true }] }

/-- Environment whose only wallet holds 10 USDC. -/
def envMid : Env := { balances := some [{ balance := "10", isDefault := true }] }

/-- Whether a reply is one of the two insufficient-balance replies of the
external-withdrawal amount step. -/
def Reply.isInsufficient : Reply → Bool
  | .insufficientFunds _ => true
  | .insufficientTotal _ _ => true
  | _ => false

/-- Context of an external-withdrawal flow that has reached the amount step. -/
def ctxExt : TransactionContext :=
  { externalWalletAddress := some ethAddr, network := some "solana" }

/-- The flow sequences of §4.2: the state each registered step handler
advances to on success.  Login: email → OTP → idle; email transfer:
recipient → amount → confirmation; external wallet transfer:
address → network → amount → confirmation; external-wallet withdrawal:
address → network → amount → confirmation → typed final gate → idle. -/
def nextStep : ConversationState → ConversationState
  | .WAITING_FOR_EMAIL => .WAITING_FOR_OTP
  | .WAITING_FOR_OTP => .IDLE
  | .WAITING_FOR_RECIPIENT_EMAIL => .WAITING_FOR_SEND_AMOUNT
  | .WAITING_FOR_SEND_AMOUNT => .WAITING_FOR_SEND_CONFIRMATION
  | .WAITING_FOR_WALLET_ADDRESS => .WAITING_FOR_WALLET_NETWORK
  | .WAITING_FOR_WALLET_AMOUNT => .WAITING_FOR_WALLET_CONFIRMATION
  | .WAITING_FOR_EXTERNAL_WALLET => .WAITING_FOR_EXTERNAL_WALLET_NETWORK
  | .WAITING_FOR_EXTERNAL_WALLET_AMOUNT => .WAITING_FOR_EXTERNAL_WALLET_CONFIRMATION
  | .WAITING_FOR_WITHDRAWAL_FINAL_CONFIRMATION => .IDLE
  | s => s

/-- Replies that re-prompt the user to correct the current step's input. -/
def isCorrective : Reply → Bool
  | .invalidEmail | .invalidEmailFormat | .nonNumericOtp | .invalidOtp
  | .invalidAmount | .amountTooHigh | .belowMinimum _ | .invalidWalletAddress
  | .invalidAddressShort | .insufficientFunds _ | .insufficientTotal _ _
  | .typeConfirmPrompt => true
  | _ => false

/-- The summed balance the external-withdrawal amount step computes. -/
def totalBalanceOf (env : Env) : Option ℚ := jsSumBalances ((env.balances).getD [])

/-- The validation each registered step handler applies to its input (the
conditions of the handler's early-return re-prompts, including — for the OTP
step — the OTP verification and — for the external amount step — the two
balance comparisons). -/
def stepValid (env : Env) (s : ConversationState) (ctx : TransactionContext)
    (text : String) : Prop :=
  match s with
  | .WAITING_FOR_EMAIL => jsContainsChar (jsTrim text) '@' = true
  | .WAITING_FOR_OTP =>
    (jsTrim text ≠ "" ∧ (jsTrim text).data.all Char.isDigit = true) ∧
      (env.authUser (jsTrim text)).isSome = true
  | .WAITING_FOR_RECIPIENT_EMAIL =>
    jsContainsChar (jsTrim text) '@' = true ∧ emailRegexOk (jsTrim text) = true
  | .WAITING_FOR_SEND_AMOUNT =>
    jsNanOrNonPos (jsParseFloat (jsTrim text)) = false ∧
    jsGt (jsParseFloat (jsTrim text)) 10000 = false ∧
    (validateMinimumAmount env.minimums (jsTrim text) .email none).1 = true
  | .WAITING_FOR_WALLET_ADDRESS =>
    ¬ ((jsTrim text).length < 30 ∨ (jsTrim text).length > 50)
  | .WAITING_FOR_WALLET_AMOUNT =>
    jsNanOrNonPos (jsParseFloat (jsTrim text)) = false ∧
    jsGt (jsParseFloat (jsTrim text)) 10000 = false ∧
    (validateMinimumAmount env.minimums (jsTrim text) .wallet
      (strTruthy ctx.network)).1 = true
  | .WAITING_FOR_EXTERNAL_WALLET => ¬ ((jsTrim text).length < 10)
  | .WAITING_FOR_EXTERNAL_WALLET_AMOUNT =>
    jsNanOrNonPos (jsParseFloat (jsTrim text)) = false ∧
    jsLtOO (totalBalanceOf env) (jsParseFloat (jsTrim text)) = false ∧
    (validateMinimumAmount env.minimums (jsTrim text) .wallet
      (strTruthy ctx.network)).1 = true ∧
    jsLtOO (totalBalanceOf env)
      (jsAdd (jsParseFloat (jsTrim text))
        (calculateFee env .wallet (strTruthy ctx.network) none)) = false
  | .WAITING_FOR_WITHDRAWAL_FINAL_CONFIRMATION =>
    jsToUpper (jsTrim text) = "CONFIRM" ∨ jsToUpper (jsTrim text) = "CANCEL"
  | _ => False

/-- Preconditions under which a step handler runs its normal course: the
external collaborators succeed (OTP request), the context fields the step
reads were stored by the preceding steps, and the account has balances where
the step fetches them.  Outside these, the source's error paths reset the
state to idle (§4.2's on-error policy, confirmed by `C6_dispatch`). -/
def envReady (env : Env) (s : ConversationState) (ctx : TransactionContext) : Prop :=
  match s with
  | .WAITING_FOR_EMAIL => env.otpRequestOk = true
  | .WAITING_FOR_SEND_AMOUNT => ∃ r, strTruthy ctx.recipientEmail = some r
  | .WAITING_FOR_WALLET_AMOUNT =>
    (∃ w, strTruthy ctx.walletAddress = some w) ∧
    (∃ n, strTruthy ctx.network = some n)
  | .WAITING_FOR_EXTERNAL_WALLET_AMOUNT =>
    (∃ w, strTruthy ctx.externalWalletAddress = some w) ∧
    (∃ n, strTruthy ctx.network = some n) ∧
    (∃ b bs, env.balances = some (b :: bs))
  | .WAITING_FOR_WITHDRAWAL_FINAL_CONFIRMATION =>
    (∃ w, strTruthy ctx.externalWalletAddress = some w) ∧
    (∃ a, strTruthy ctx.amount = some a) ∧
    (∃ n, strTruthy ctx.network = some n)
  | _ => True

/-! ### Evaluation lemmas for the concrete strings used in the claims -/

theorem jsParseFloat_ten_half : jsParseFloat "10.5" = some (21 / 2) := by
  simp +decide [jsParseFloat, jsParseFloatCore, digitsVal, charDigit, parseExp, expDigits,
    scalePow10, List.takeWhile, List.dropWhile]
  norm_num

theorem jsParseFloat_neg5 : jsParseFloat "-5" = some (-5) := by
  simp +decide [jsParseFloat, jsParseFloatCore, digitsVal, charDigit, parseExp, expDigits,
    scalePow10, List.takeWhile, List.dropWhile]

theorem jsParseFloat_zero : jsParseFloat "0" = some 0 := by
  simp +decide [jsParseFloat, jsParseFloatCore, digitsVal, charDigit, parseExp, expDigits,
    scalePow10, List.takeWhile, List.dropWhile]

theorem jsParseFloat_abc : jsParseFloat "abc" = none := by
  simp +decide [jsParseFloat, jsParseFloatCore, digitsVal, charDigit, parseExp, expDigits,
    scalePow10, List.takeWhile, List.dropWhile]

theorem jsParseFloat_empty : jsParseFloat "" = none := by
  simp +decide [jsParseFloat, jsParseFloatCore, digitsVal, charDigit, parseExp, expDigits,
    scalePow10, List.takeWhile, List.dropWhile]

theorem jsParseFloat_10000 : jsParseFloat "10000" = some 10000 := by
  simp +decide [jsParseFloat, jsParseFloatCore, digitsVal, charDigit, parseExp, expDigits,
    scalePow10, List.takeWhile, List.dropWhile]

theorem jsParseFloat_10001 : jsParseFloat "10001" = some 10001 := by
  simp +decide [jsParseFloat, jsParseFloatCore, digitsVal, charDigit, parseExp, expDigits,
    scalePow10, List.takeWhile, List.dropWhile]

theorem jsParseFloat_95 : jsParseFloat "95" = some 95 := by
  simp +decide [jsParseFloat, jsParseFloatCore, digitsVal, charDigit, parseExp, expDigits,
    scalePow10, List.takeWhile, List.dropWhile]

theorem jsParseFloat_100 : jsParseFloat "100" = some 100 := by
  simp +decide [jsParseFloat, jsParseFloatCore, digitsVal, charDigit, parseExp, expDigits,
    scalePow10, List.takeWhile, List.dropWhile]

theorem jsParseFloat_3 : jsParseFloat "3" = some 3 := by
  simp +decide [jsParseFloat, jsParseFloatCore, digitsVal, charDigit, parseExp, expDigits,
    scalePow10, List.takeWhile, List.dropWhile]

theorem jsParseFloat_10 : jsParseFloat "10" = some 10 := by
  simp +decide [jsParseFloat, jsParseFloatCore, digitsVal, charDigit, parseExp, expDigits,
    scalePow10, List.takeWhile, List.dropWhile]

theorem jsParseFloat_2 : jsParseFloat "2" = some 2 := by
  simp +decide [jsParseFloat, jsParseFloatCore, digitsVal, charDigit, parseExp, expDigits,
    scalePow10, List.takeWhile, List.dropWhile]

theorem jsParseFloat_100000 : jsParseFloat "100000" = some 100000 := by
  simp +decide [jsParseFloat, jsParseFloatCore, digitsVal, charDigit, parseExp, expDigits,
    scalePow10, List.takeWhile, List.dropWhile]

/-! ### C7: `resetState` -/

/-- C7: for every chat id, `resetState` leaves the chat idle and does not
touch any context (the same record is returned for every chat before and
after); it is idempotent, and it does not affect another chat's state or
context.  `resetState` is a total Lean function here, which reflects that the
source method performs only a `Map.set` and cannot throw. -/
theorem C7_resetState (cm : ConversationManager) (chatId other : ℤ)
    (h : other ≠ chatId) :
    (cm.resetState chatId).getState chatId = .IDLE ∧
    (∀ c : ℤ, (cm.resetState chatId).getContext c = cm.getContext c) ∧
    ((cm.resetState chatId).resetState chatId).getState chatId = .IDLE ∧
    (cm.resetState chatId).resetState chatId = cm.resetState chatId ∧
    (cm.resetState chatId).getState other = cm.getState other ∧
    (cm.resetState chatId).getContext other = cm.getContext other := by
  refine ⟨?_, ?_, ?_, ?_, ?_, ?_⟩
  · simp [ConversationManager.resetState, ConversationManager.setState,
      ConversationManager.getState]
  · intro c
    simp [ConversationManager.resetState, ConversationManager.setState,
      ConversationManager.getContext]
  · simp [ConversationManager.resetState, ConversationManager.setState,
      ConversationManager.getState]
  · simp only [ConversationManager.resetState, ConversationManager.setState]
    congr 1
    funext c
    by_cases hc : c = chatId <;> simp [hc]
  · simp [ConversationManager.resetState, ConversationManager.setState,
      ConversationManager.getState, h]
  · simp [ConversationManager.resetState, ConversationManager.setState,
      ConversationManager.getContext, h]

/-- Concrete instantiation of `C7_resetState`: chat 5 mid-login with a saved
context, chat 6 untouched. -/
theorem C7_resetState_witness :
    (let cm : ConversationManager :=
      { states := fun c => if c = 5 then some .WAITING_FOR_OTP else none,
        contexts := fun c => if c = 5 then some { amount := some "5" } else none }
     (cm.resetState 5).getState 5 = .IDLE ∧
     (∀ c : ℤ, (cm.resetState 5).getContext c = cm.getContext c) ∧
     ((cm.resetState 5).resetState 5).getState 5 = .IDLE ∧
     (cm.resetState 5).resetState 5 = cm.resetState 5 ∧
     (cm.resetState 5).getState 6 = cm.getState 6 ∧
     (cm.resetState 5).getContext 6 = cm.getContext 6) :=
  C7_resetState _ 5 6 (by decide)

/-! ### C6: free-text dispatch -/

/-- C6: on a free-text message, a non-idle state with no registered handler is
reset to idle with the generic error reply; an idle state runs no handler and
produces the "I didn't understand" menu fallback, leaving the manager (and in
particular the idle state) unchanged. -/
theorem C6_dispatch (env : Env) (cm : ConversationManager) (chatId : ℤ)
    (text : String) :
    (registeredHandler (cm.getState chatId) = none → cm.getState chatId ≠ .IDLE →
      (dispatchText env cm chatId text).1.getState chatId = .IDLE ∧
      (dispatchText env cm chatId text).2 = .genericOperationError) ∧
    (cm.getState chatId = .IDLE →
      (dispatchText env cm chatId text).1 = cm ∧
      (dispatchText env cm chatId text).2 = .didNotUnderstand ∧
      (dispatchText env cm chatId text).1.getState chatId = .IDLE) := by
  constructor
  · intro hnone hne
    have hd : dispatchText env cm chatId text =
        (cm.resetState chatId, .genericOperationError) := by
      simp only [dispatchText, hnone]
      simp [hne]
    rw [hd]
    refine ⟨?_, rfl⟩
    simp [ConversationManager.resetState, ConversationManager.setState,
      ConversationManager.getState]
  · intro hidle
    have hnone : registeredHandler (cm.getState chatId) = none := by
      rw [hidle]; rfl
    simp only [dispatchText, hnone]
    rw [if_neg (by simp [hidle])]
    exact ⟨rfl, rfl, hidle⟩

/-- Concrete instantiation of `C6_dispatch`: chat 5 stuck in the (handlerless)
send-confirmation state is reset with the generic error; idle chat 6 gets the
fallback reply and stays idle. -/
theorem C6_dispatch_witness :
    (let cm : ConversationManager :=
      { states := fun c => if c = 5 then some .WAITING_FOR_SEND_CONFIRMATION else none,
        contexts := fun _ => none }
     ((dispatchText {} cm 5 "hello").1.getState 5 = .IDLE ∧
      (dispatchText {} cm 5 "hello").2 = .genericOperationError) ∧
     ((dispatchText {} cm 6 "hello").1 = cm ∧
      (dispatchText {} cm 6 "hello").2 = .didNotUnderstand ∧
      (dispatchText {} cm 6 "hello").1.getState 6 = .IDLE)) := by
  refine ⟨?_, ?_⟩
  · exact (C6_dispatch {} _ 5 "hello").1 rfl (by decide)
  · exact (C6_dispatch {} _ 6 "hello").2 rfl

/-! ### C10: `checkBalance` ignores its `includesFee` flag and uses the
default wallet alone -/

/-- C10: for every environment (hence every chat's balances), amount string
and flag value, `checkBalance` returns the same result with
`includesFee = true` and `includesFee = false`; and whenever the balances list
is non-empty, the sufficiency decision compares the parsed amount against the
balance of the wallet marked default — or the first wallet if none is — and
reports that wallet's balance alone, never the sum. -/
theorem C10_checkBalance (env : Env) (amount : String) (f₁ f₂ : Bool) :
    checkBalance env amount f₁ = checkBalance env amount f₂ ∧
    (∀ b bs, env.balances = some (b :: bs) →
      checkBalance env amount f₁ =
        { sufficient :=
            jsGe (jsParseFloat (((b :: bs).find? (fun w => w.isDefault)).getD b).balance)
              (jsParseFloat amount),
          availableBalance :=
            some (((b :: bs).find? (fun w => w.isDefault)).getD b).balance }) := by
  constructor
  · cases f₁ <;> cases f₂ <;> rfl
  · intro b bs hb
    cases f₁ <;> simp [checkBalance, checkBalanceCore, hb]

/-- Concrete instantiation of `C10_checkBalance`: two wallets, the second
marked default with balance 7; an amount of 5 is judged against 7 alone (the
sum 107 plays no role) and the flag value is irrelevant. -/
theorem C10_checkBalance_witness :
    (let env : Env :=
      { balances := some [{ balance := "100", isDefault := false },
                          { balance := "7", isDefault := true }] }
     checkBalance env "5" true = checkBalance env "5" false ∧
     checkBalance env "5" true =
       { sufficient :=
           jsGe (jsParseFloat ((([⟨"100", false⟩, ⟨"7", true⟩] :
               List WalletBalance).find? (fun w => w.isDefault)).getD ⟨"100", false⟩).balance)
             (jsParseFloat "5"),
         availableBalance := some "7" }) := by
  refine ⟨(C10_checkBalance _ "5" true false).1, ?_⟩
  have h := (C10_checkBalance
    { balances := some [{ balance := "100", isDefault := false },
                        { balance := "7", isDefault := true }] }
    "5" true false).2 ⟨"100", false⟩ [⟨"7", true⟩] rfl
  simpa using h

/-! ### C2: the balance sufficiency check is against principal plus fee -/

/-- C2: in each of `sendFundsToEmail`, `sendFundsToWallet` and
`withdrawToBank`, the sufficiency check compares the available balance with
principal plus fee: with balance 100, amount 95 and fee 10 each transfer is
rejected as insufficient with required total 105; with fee 4 the balance
check passes in each and the transfer is issued. -/
theorem C2_feeInclusiveBalance :
    sendFundsToEmail (envFee 10) 1 "a@b.com" "95" =
      .error (.insufficientBalance (some "100") (some 105)) ∧
    sendFundsToWallet (envFee 10) 1 ethAddr "ETHEREUM" "95" =
      .error (.insufficientBalance (some "100") (some 105)) ∧
    withdrawToBank (envFee 10) 1 "bank-1" "95" =
      .error (.insufficientBalance (some "100") (some 105)) ∧
    sendFundsToEmail (envFee 4) 1 "a@b.com" "95" = .ok () ∧
    sendFundsToWallet (envFee 4) 1 ethAddr "ETHEREUM" "95" = .ok () ∧
    withdrawToBank (envFee 4) 1 "bank-1" "95" = .ok () := by
  refine ⟨?_, ?_, ?_, ?_, ?_, ?_⟩ <;>
    simp +decide [sendFundsToEmail, sendFundsToWallet, withdrawToBank, envFee, ethAddr,
      validateMinimumAmount, calculateFee, calculateFeeLocally, checkBalanceCore,
      validateNetwork, solanaAddressOk, ethereumAddressOk, jsToUpper, jsAdd, jsGe,
      jsLt, jsNumOr, NetworkTable.lookup, NetworkTable.get, NetworkTable.solana,
      DEFAULT_MIN_AMOUNTS, DEFAULT_FEES, jsParseFloat_95, jsParseFloat_100] <;>
    norm_num

/-! ### C1: the terminal confirmation passes amount and network to
`sendFundsToWallet` in swapped positions -/

/-- C1 (refuting the claimed bindings): both terminal confirmations call
`sendFundsToWallet(chatId, address, network, amount)` with the stored
*amount* bound to the `network` parameter and the stored *network* bound to
the `amount` parameter.  With stored network `solana` and amount `50`, the
service therefore validates `50` as a network name and rejects the transfer
as `Unsupported network: 50`, so the confirmed transfer always fails. -/
theorem C1_swappedTransferCall :
    (handleWithdrawalFinalConfirmation {} 7 ctxWithdrawal "CONFIRM").call =
      some { chatId := 7, address := ethAddr, network := "50", amount := "solana" } ∧
    (handleWalletSendConfirmation {} 7 ctxWalletSend).call =
      some { chatId := 7, address := ethAddr, network := "50", amount := "solana" } ∧
    sendFundsToWallet ({} : Env) 7 ethAddr "50" "solana" =
      .error (.unsupportedNetwork "50") ∧
    (handleWithdrawalFinalConfirmation {} 7 ctxWithdrawal "CONFIRM").reply =
      .withdrawalFailed ∧
    (handleWalletSendConfirmation {} 7 ctxWalletSend).reply = .transactionFailed := by
  exact ⟨by decide, by decide, rfl, by decide, by decide⟩

/-! ### C4: amount validation and the 10,000 ceiling -/

/-- C4 counterexample: the external-wallet withdrawal amount step has no
10,000 ceiling.  The amount `10001` exceeds the ceiling
(`jsGt … 10000 = true`), yet with a large enough balance the handler accepts
it and advances to the confirmation step instead of rejecting it as
unusually high. -/
theorem C4_counterexample :
    jsGt (jsParseFloat (jsTrim "10001")) 10000 = true ∧
    (handleExternalWalletAmountInput envRich ctxExt "10001").reply = .confirmationShown ∧
    (handleExternalWalletAmountInput envRich ctxExt "10001").state =
      some .WAITING_FOR_EXTERNAL_WALLET_CONFIRMATION := by
  have htrim : jsTrim "10001" = "10001" := by decide
  refine ⟨?_, ?_, ?_⟩ <;>
    simp +decide [handleExternalWalletAmountInput, envRich, ctxExt, htrim,
      jsParseFloat_10001, jsParseFloat_100000, jsNanOrNonPos, jsGt, jsLtOO, jsAdd,
      jsSumBalances, strTruthy, validateMinimumAmount, calculateFee, calculateFeeLocally,
      jsLt, jsToUpper, jsNumOr, NetworkTable.lookup, NetworkTable.get, NetworkTable.solana,
      DEFAULT_MIN_AMOUNTS, DEFAULT_FEES] <;>
    norm_num

/-- C4 as amended: `-5`, `0`, `abc` and the empty string are rejected with the
invalid-amount re-prompt (state untouched) in all three amount steps; `10.5`
is accepted by each; the 10,000 ceiling — `10000` accepted, `10001` rejected
as unusually high — applies to the email-send and wallet-send amount steps,
while the external-withdrawal amount step enforces no ceiling (see the
counterexample). -/
theorem C4_amended (env : Env) (ctx : TransactionContext) :
    (∀ s, jsNanOrNonPos (jsParseFloat (jsTrim s)) = true →
      handleSendAmountInput env ctx s = { ctx := ctx, reply := .invalidAmount } ∧
      handleWalletAmountInput env ctx s = { ctx := ctx, reply := .invalidAmount } ∧
      handleExternalWalletAmountInput env ctx s = { ctx := ctx, reply := .invalidAmount }) ∧
    (jsNanOrNonPos (jsParseFloat (jsTrim "-5")) = true ∧
     jsNanOrNonPos (jsParseFloat (jsTrim "0")) = true ∧
     jsNanOrNonPos (jsParseFloat (jsTrim "abc")) = true ∧
     jsNanOrNonPos (jsParseFloat (jsTrim "")) = true) ∧
    (handleSendAmountInput env ctx "10001" = { ctx := ctx, reply := .amountTooHigh } ∧
     handleWalletAmountInput env ctx "10001" = { ctx := ctx, reply := .amountTooHigh }) ∧
    (handleSendAmountInput {} { recipientEmail := some "a@b.com" } "10.5" |>.state) =
        some .WAITING_FOR_SEND_CONFIRMATION ∧
    (handleWalletAmountInput {} ctxWalletSend "10.5" |>.state) =
        some .WAITING_FOR_WALLET_CONFIRMATION ∧
    (handleExternalWalletAmountInput envRich ctxExt "10.5" |>.state) =
        some .WAITING_FOR_EXTERNAL_WALLET_CONFIRMATION ∧
    (handleSendAmountInput {} { recipientEmail := some "a@b.com" } "10000" |>.state) =
        some .WAITING_FOR_SEND_CONFIRMATION ∧
    (handleWalletAmountInput {} ctxWalletSend "10000" |>.state) =
        some .WAITING_FOR_WALLET_CONFIRMATION := by
  refine ⟨?_, ?_, ?_, ?_, ?_, ?_, ?_, ?_⟩
  · intro s hs
    refine ⟨?_, ?_, ?_⟩ <;>
      simp [handleSendAmountInput, handleWalletAmountInput,
        handleExternalWalletAmountInput, hs]
  · refine ⟨?_, ?_, ?_, ?_⟩ <;>
      simp +decide [jsNanOrNonPos, jsParseFloat_neg5, jsParseFloat_zero,
        jsParseFloat_abc, jsParseFloat_empty,
        show jsTrim "-5" = "-5" from by decide, show jsTrim "0" = "0" from by decide,
        show jsTrim "abc" = "abc" from by decide, show jsTrim "" = "" from by decide]
  · have htrim : jsTrim "10001" = "10001" := by decide
    refine ⟨?_, ?_⟩ <;>
      simp [handleSendAmountInput, handleWalletAmountInput, htrim, jsParseFloat_10001,
        jsNanOrNonPos, jsGt] <;> norm_num
  · simp +decide [handleSendAmountInput, jsParseFloat_ten_half, jsNanOrNonPos, jsGt,
      strTruthy, validateMinimumAmount, jsLt, DEFAULT_MIN_AMOUNTS,
      show jsTrim "10.5" = "10.5" from by decide]
    norm_num
  · simp +decide [handleWalletAmountInput, ctxWalletSend, jsParseFloat_ten_half,
      jsNanOrNonPos, jsGt, strTruthy, validateMinimumAmount, jsLt, jsToUpper, jsNumOr,
      NetworkTable.lookup, NetworkTable.get, NetworkTable.solana, DEFAULT_MIN_AMOUNTS,
      show jsTrim "10.5" = "10.5" from by decide]
    norm_num
  · simp +decide [handleExternalWalletAmountInput, envRich, ctxExt, jsParseFloat_ten_half,
      jsParseFloat_100000, jsNanOrNonPos, jsGt, jsLtOO, jsAdd, jsSumBalances, strTruthy,
      validateMinimumAmount, calculateFee, calculateFeeLocally, jsLt, jsToUpper, jsNumOr,
      NetworkTable.lookup, NetworkTable.get, NetworkTable.solana, DEFAULT_MIN_AMOUNTS,
      DEFAULT_FEES, show jsTrim "10.5" = "10.5" from by decide]
    norm_num
  · simp +decide [handleSendAmountInput, jsParseFloat_10000, jsNanOrNonPos, jsGt,
      strTruthy, validateMinimumAmount, jsLt, DEFAULT_MIN_AMOUNTS,
      show jsTrim "10000" = "10000" from by decide]
  · simp +decide [handleWalletAmountInput, ctxWalletSend, jsParseFloat_10000,
      jsNanOrNonPos, jsGt, strTruthy, validateMinimumAmount, jsLt, jsToUpper, jsNumOr,
      NetworkTable.lookup, NetworkTable.get, NetworkTable.solana, DEFAULT_MIN_AMOUNTS,
      show jsTrim "10000" = "10000" from by decide]

/-- Concrete instantiation of `C4_amended`: the invalid inputs are rejected by
the send-amount handler with the context preserved. -/
theorem C4_amended_witness :
    handleSendAmountInput {} { recipientEmail := some "a@b.com" } "-5" =
      { ctx := { recipientEmail := some "a@b.com" }, reply := .invalidAmount } ∧
    handleSendAmountInput {} { recipientEmail := some "a@b.com" } "abc" =
      { ctx := { recipientEmail := some "a@b.com" }, reply := .invalidAmount } := by
  have h := C4_amended {} { recipientEmail := some "a@b.com" }
  exact ⟨(h.1 "-5" h.2.1.1).1, (h.1 "abc" h.2.1.2.2.1).1⟩

/-! ### C3: order of minimum-amount validation and balance comparison -/

theorem jsParseFloat_half : jsParseFloat "0.5" = some (1 / 2) := by
  simp +decide [jsParseFloat, jsParseFloatCore, digitsVal, charDigit, parseExp, expDigits,
    scalePow10, List.takeWhile, List.dropWhile]
  norm_num

/-- C3 counterexample: in the external-wallet withdrawal amount step, the
total-balance comparison is decided before the minimum-amount validation.
The amount `3` is below the applicable SOLANA minimum of 5, yet with a
balance of 2 the handler replies with the insufficient-balance message, not
the minimum-amount re-prompt. -/
theorem C3_counterexample :
    (validateMinimumAmount DEFAULT_MIN_AMOUNTS "3" .wallet (some "solana")).1 = false ∧
    (handleExternalWalletAmountInput envPoor ctxExt "3").reply =
      .insufficientFunds (some 2) ∧
    (handleExternalWalletAmountInput envPoor ctxExt "3").state = none := by
  have htrim : jsTrim "3" = "3" := by decide
  refine ⟨?_, ?_, ?_⟩ <;>
    simp +decide [handleExternalWalletAmountInput, envPoor, ctxExt, htrim,
      jsParseFloat_3, jsParseFloat_2, jsNanOrNonPos, jsLtOO, jsSumBalances, strTruthy,
      validateMinimumAmount, jsLt, jsToUpper, jsNumOr, NetworkTable.lookup,
      NetworkTable.get, NetworkTable.solana, DEFAULT_MIN_AMOUNTS]

/-- C3 as amended: the email-send and wallet-send amount steps decide the
minimum-amount validation before any balance comparison — indeed they make no
balance comparison at all, so a below-minimum amount always gets the
minimum-amount re-prompt with the state untouched.  In the external-wallet
withdrawal amount step a total-balance-versus-amount comparison is decided
first, and the below-minimum re-prompt is reached only when that comparison
passes. -/
theorem C3_amended (env : Env) (ctx : TransactionContext) (text : String) :
    Reply.isInsufficient (handleSendAmountInput env ctx text).reply = false ∧
    Reply.isInsufficient (handleWalletAmountInput env ctx text).reply = false ∧
    (jsNanOrNonPos (jsParseFloat (jsTrim text)) = false →
      jsGt (jsParseFloat (jsTrim text)) 10000 = false →
      (∀ r, strTruthy ctx.recipientEmail = some r →
        (validateMinimumAmount env.minimums (jsTrim text) .email none).1 = false →
        handleSendAmountInput env ctx text =
          { ctx := ctx,
            reply := .belowMinimum
              (validateMinimumAmount env.minimums (jsTrim text) .email none).2 }) ∧
      (∀ w net, strTruthy ctx.walletAddress = some w → strTruthy ctx.network = some net →
        (validateMinimumAmount env.minimums (jsTrim text) .wallet (some net)).1 = false →
        handleWalletAmountInput env ctx text =
          { ctx := ctx,
            reply := .belowMinimum
              (validateMinimumAmount env.minimums (jsTrim text) .wallet (some net)).2 })) ∧
    (∀ w net b bs, jsNanOrNonPos (jsParseFloat (jsTrim text)) = false →
      strTruthy ctx.externalWalletAddress = some w → strTruthy ctx.network = some net →
      env.balances = some (b :: bs) →
      jsLtOO (jsSumBalances (b :: bs)) (jsParseFloat (jsTrim text)) = false →
      (validateMinimumAmount env.minimums (jsTrim text) .wallet (some net)).1 = false →
      handleExternalWalletAmountInput env ctx text =
        { ctx := ctx,
          reply := .belowMinimum
            (validateMinimumAmount env.minimums (jsTrim text) .wallet (some net)).2 }) := by
  refine ⟨?_, ?_, ?_, ?_⟩
  · simp only [handleSendAmountInput]
    repeat' split
    all_goals rfl
  · simp only [handleWalletAmountInput]
    repeat' split
    all_goals rfl
  · intro hparse hceil
    constructor
    · intro r hr hmin
      simp [handleSendAmountInput, hparse, hceil, hr, hmin]
    · intro w net hw hnet hmin
      simp [handleWalletAmountInput, hparse, hceil, hw, hnet, hmin]
  · intro w net b bs hparse hw hnet hb hbal hmin
    simp [handleExternalWalletAmountInput, hparse, hw, hnet, hb, hbal, hmin]

/-- Concrete instantiation of `C3_amended`: amount `0.5` is below the email
minimum of 1 and gets the minimum re-prompt in the send step; amount `3` with
a 10-USDC balance is below the SOLANA minimum of 5 and gets the minimum
re-prompt in the external-withdrawal step. -/
theorem C3_amended_witness :
    handleSendAmountInput {} { recipientEmail := some "a@b.com" } "0.5" =
      { ctx := { recipientEmail := some "a@b.com" },
        reply := .belowMinimum
          (validateMinimumAmount DEFAULT_MIN_AMOUNTS "0.5" .email none).2 } ∧
    handleExternalWalletAmountInput envMid ctxExt "3" =
      { ctx := ctxExt,
        reply := .belowMinimum
          (validateMinimumAmount DEFAULT_MIN_AMOUNTS "3" .wallet (some "solana")).2 } := by
  have h1 := ((C3_amended {} { recipientEmail := some "a@b.com" } "0.5").2.2.1
    (by simp +decide [jsNanOrNonPos, jsParseFloat_half,
      show jsTrim "0.5" = "0.5" from by decide])
    (by simp +decide [jsGt, jsParseFloat_half,
      show jsTrim "0.5" = "0.5" from by decide]; norm_num)).1
    "a@b.com" (by decide)
    (by simp +decide [validateMinimumAmount, jsLt, jsParseFloat_half,
      DEFAULT_MIN_AMOUNTS, show jsTrim "0.5" = "0.5" from by decide]; norm_num)
  have h2 := (C3_amended envMid ctxExt "3").2.2.2 ethAddr "solana"
    { balance := "10", isDefault := true } []
    (by simp +decide [jsNanOrNonPos, jsParseFloat_3,
      show jsTrim "3" = "3" from by decide])
    (by decide) (by decide) rfl
    (by simp +decide [jsLtOO, jsSumBalances, jsParseFloat_3, jsParseFloat_10,
      show jsTrim "3" = "3" from by decide])
    (by simp +decide [validateMinimumAmount, jsLt, jsParseFloat_3, jsToUpper, jsNumOr,
      NetworkTable.lookup, NetworkTable.get, NetworkTable.solana, DEFAULT_MIN_AMOUNTS,
      show jsTrim "3" = "3" from by decide])
  refine ⟨?_, ?_⟩
  · rw [h1]
    simp [show jsTrim "0.5" = "0.5" from by decide]
  · rw [h2]
    simp [show jsTrim "3" = "3" from by decide, envMid]

/-! ### C8: HTTP retry policy -/

/-- C8: the client retries exactly the no-response failures, HTTP 429 and
HTTP 5xx.  A response with any other 4xx status is rejected immediately with
no retry and no backoff; a first failure that is retryable triggers a retry
(backoff list non-empty); and when every attempt fails retryably the request
is retried three times with exponential backoffs of 2¹, 2² and 2³ seconds
(2000, 4000, 8000 ms) and then rejected with the last error. -/
theorem C8_retryPolicy :
    (∀ f : HttpFailure, shouldRetry f = true ↔
      (f = .network ∨ f = .status 429 ∨ ∃ c, f = .status c ∧ 500 ≤ c ∧ c < 600)) ∧
    (∀ outcomes c, 400 ≤ c → c < 500 → c ≠ 429 →
      outcomes 0 = .error (.status c) →
      apiRequest outcomes = (.error (.status c), [])) ∧
    (∀ outcomes e, outcomes 0 = .error e → shouldRetry e = false →
      apiRequest outcomes = (.error e, [])) ∧
    (∀ outcomes e, outcomes 0 = .error e → shouldRetry e = true →
      (apiRequest outcomes).2 ≠ []) ∧
    (∀ outcomes, (∀ k, ∃ e, outcomes k = .error e ∧ shouldRetry e = true) →
      ∃ e₃, outcomes 3 = .error e₃ ∧
        apiRequest outcomes = (.error e₃, [2000, 4000, 8000])) := by
  refine ⟨?_, ?_, ?_, ?_, ?_⟩
  · intro f
    cases f with
    | network => simp [shouldRetry]
    | status c =>
      simp only [shouldRetry]
      constructor
      · intro h
        rcases of_decide_eq_true h with h | ⟨h5, h6⟩
        · exact Or.inr (Or.inl (by rw [h]))
        · exact Or.inr (Or.inr ⟨c, rfl, h5, h6⟩)
      · rintro (h | h | ⟨c', hc, h5, h6⟩)
        · exact absurd h (by simp)
        · cases h
          decide
        · cases hc
          exact decide_eq_true (Or.inr ⟨h5, h6⟩)
  · intro outcomes c h4 h5 h429 h0
    have hsr : shouldRetry (.status c) = false := by
      simp only [shouldRetry, decide_eq_false_iff_not]
      omega
    simp [apiRequest, interceptorRun, h0, hsr]
  · intro outcomes e h0 hsr
    simp [apiRequest, interceptorRun, h0, hsr]
  · intro outcomes e h0 hsr
    simp [apiRequest, maxRetries, interceptorRun, h0, hsr]
  · intro outcomes hall
    obtain ⟨e0, h0, hr0⟩ := hall 0
    obtain ⟨e1, h1, hr1⟩ := hall 1
    obtain ⟨e2, h2, hr2⟩ := hall 2
    obtain ⟨e3, h3, hr3⟩ := hall 3
    refine ⟨e3, h3, ?_⟩
    simp [apiRequest, maxRetries, interceptorRun, h0, h1, h2, h3, hr0, hr1, hr2, hr3]

/-- Concrete instantiation of `C8_retryPolicy`: a permanent 503 is retried
three times with backoffs 2000, 4000 and 8000 ms and then rejected, while a
404 is rejected immediately without retrying. -/
theorem C8_retryPolicy_witness :
    apiRequest (fun _ => .error (.status 503)) =
      (.error (.status 503), [2000, 4000, 8000]) ∧
    apiRequest (fun _ => .error (.status 404)) = (.error (.status 404), []) := by
  constructor
  · obtain ⟨e₃, he₃, happ⟩ := C8_retryPolicy.2.2.2.2 (fun _ => .error (.status 503))
      (fun _ => ⟨.status 503, rfl, by decide⟩)
    cases he₃
    exact happ
  · exact C8_retryPolicy.2.1 (fun _ => .error (.status 404)) 404
      (by decide) (by decide) (by decide) rfl

/-! ### C9: deposit notification fan-out and rate limiting -/

theorem depositTarget_iff (org : String) (now : ℤ) (u : NotifUser) :
    depositTarget org now u = true ↔ (u.org = org ∧ rateLimited u now = false) := by
  simp [depositTarget]

theorem notifyUser_chatId (org : String) (now : ℤ) (u : NotifUser) :
    (notifyUser org now u).chatId = u.chatId := by
  unfold notifyUser
  split <;> rfl

theorem handleDeposit_fst_map_chatId (users : List NotifUser) (org : String) (now : ℤ) :
    (handleDeposit users org now).1.map (fun u => u.chatId) =
      users.map (fun u => u.chatId) := by
  simp only [handleDeposit, List.map_map]
  exact List.map_congr_left fun u _ => notifyUser_chatId org now u

theorem mem_handleDeposit_sends (users : List NotifUser) (org : String) (now : ℤ)
    (c : ℤ) :
    c ∈ (handleDeposit users org now).2 ↔
      ∃ u ∈ users, u.chatId = c ∧ u.org = org ∧ rateLimited u now = false := by
  simp only [handleDeposit, List.mem_map, List.mem_filter]
  constructor
  · rintro ⟨u, ⟨hu, ht⟩, rfl⟩
    obtain ⟨horg, hrl⟩ := (depositTarget_iff org now u).mp ht
    exact ⟨u, hu, rfl, horg, hrl⟩
  · rintro ⟨u, hu, rfl, horg, hrl⟩
    exact ⟨u, ⟨hu, (depositTarget_iff org now u).mpr ⟨horg, hrl⟩⟩, rfl⟩

theorem sendTimesFor_cons (c : ℤ) (users : List NotifUser) (org : String) (t : ℤ)
    (evs : List (String × ℤ)) :
    sendTimesFor c users ((org, t) :: evs) =
      ((handleDeposit users org t).2.filter (fun x => x = c)).map (fun _ => t) ++
        sendTimesFor c (handleDeposit users org t).1 evs := by
  simp only [sendTimesFor, runDeposits, List.filter_append, List.map_append]
  congr 1
  induction (handleDeposit users org t).2 with
  | nil => rfl
  | cons x xs ih =>
    by_cases hx : x = c <;> simp [hx, ih]

theorem sends_mem_chatIds (users : List NotifUser) (org : String) (now : ℤ)
    (x : ℤ) (hx : x ∈ (handleDeposit users org now).2) :
    x ∈ users.map (fun u => u.chatId) := by
  rw [mem_handleDeposit_sends] at hx
  obtain ⟨u, hu, rfl, _, _⟩ := hx
  exact List.mem_map_of_mem _ hu

/-- With no duplicate chat ids, one deposit event notifies chat `c` at most
once, and if it does, every mapping entry for `c` afterwards carries
`lastNotified = now`. -/
theorem event_sends_for_c (c : ℤ) (org : String) (t : ℤ) :
    ∀ users : List NotifUser, (users.map (fun u => u.chatId)).Nodup →
    ((handleDeposit users org t).2.filter (fun x => x = c)) = [] ∨
    (((handleDeposit users org t).2.filter (fun x => x = c)) = [c] ∧
      ∀ u ∈ (handleDeposit users org t).1, u.chatId = c → u.lastNotified = some t) := by
  intro users
  induction users with
  | nil => intro _; exact Or.inl rfl
  | cons u us ih =>
    intro hnd
    rw [List.map_cons, List.nodup_cons] at hnd
    obtain ⟨hu, hus⟩ := hnd
    have hsplit :
        (handleDeposit (u :: us) org t).2 =
          (if depositTarget org t u then [u.chatId] else []) ++
            (handleDeposit us org t).2 := by
      simp only [handleDeposit, List.filter_cons]
      split <;> simp
    have hfst :
        (handleDeposit (u :: us) org t).1 =
          notifyUser org t u :: (handleDeposit us org t).1 := rfl
    by_cases hc : u.chatId = c
    · have htail : ((handleDeposit us org t).2.filter (fun x => x = c)) = [] := by
        rw [List.filter_eq_nil_iff]
        intro a ha
        have := sends_mem_chatIds us org t a ha
        simp only [decide_eq_true_eq]
        rintro rfl
        exact hu (hc ▸ this)
      by_cases hP : depositTarget org t u = true
      · refine Or.inr ⟨?_, ?_⟩
        · rw [hsplit, List.filter_append, htail, List.append_nil, if_pos hP]
          simp [hc]
        · rw [hfst]
          intro v hv hvc
          rcases List.mem_cons.mp hv with rfl | hv
          · simp only [notifyUser, if_pos hP]
          · exfalso
            have : v.chatId ∈ (handleDeposit us org t).1.map (fun u => u.chatId) :=
              List.mem_map_of_mem _ hv
            rw [handleDeposit_fst_map_chatId] at this
            exact hu (hc ▸ hvc ▸ this)
      · refine Or.inl ?_
        rw [hsplit, List.filter_append, htail, List.append_nil,
          if_neg (by simpa using hP)]
        rfl
    · rcases ih hus with htail | ⟨htail, hupd⟩
      · refine Or.inl ?_
        rw [hsplit, List.filter_append, htail, List.append_nil]
        split <;> simp [hc]
      · refine Or.inr ⟨?_, ?_⟩
        · rw [hsplit, List.filter_append, htail]
          split <;> simp [hc]
        · rw [hfst]
          intro v hv hvc
          rcases List.mem_cons.mp hv with rfl | hv
          · exact absurd (notifyUser_chatId org t u ▸ hvc) hc
          · exact hupd v hv hvc

/-- Every notification to chat `c` after a point where all of `c`'s mapping
entries carry `lastNotified ≥ t0` happens at time `≥ t0 + 5000`. -/
theorem sendTimes_lower_bound (c : ℤ) :
    ∀ (evs : List (String × ℤ)) (users : List NotifUser) (t0 : ℤ),
    (∀ u ∈ users, u.chatId = c → ∃ tl, u.lastNotified = some tl ∧ t0 ≤ tl) →
    ∀ s ∈ sendTimesFor c users evs, t0 + 5000 ≤ s := by
  intro evs
  induction evs with
  | nil => intro users t0 _ s hs; simp [sendTimesFor, runDeposits] at hs
  | cons ev evs ih =>
    obtain ⟨org, t⟩ := ev
    intro users t0 hall s hs
    rw [sendTimesFor_cons, List.mem_append] at hs
    have key : ∀ u ∈ users, u.chatId = c → u.org = org → rateLimited u t = false →
        t0 + 5000 ≤ t := by
      intro u hu huc _ hrl
      obtain ⟨tl, htl, ht0⟩ := hall u hu huc
      simp only [rateLimited, htl, decide_eq_false_iff_not, not_lt] at hrl
      omega
    rcases hs with hs | hs
    · obtain ⟨x, hx, rfl⟩ := List.mem_map.mp hs
      have hx' := List.mem_filter.mp hx
      have hc : x = c := by simpa using hx'.2
      subst hc
      obtain ⟨u, hu, huc, horg, hrl⟩ :=
        (mem_handleDeposit_sends users org t x).mp hx'.1
      exact key u hu huc horg hrl
    · refine ih (handleDeposit users org t).1 t0 ?_ s hs
      intro v hv hvc
      simp only [handleDeposit] at hv
      obtain ⟨u, hu, rfl⟩ := List.mem_map.mp hv
      have huc : u.chatId = c := by rwa [notifyUser_chatId] at hvc
      obtain ⟨tl, htl, ht0⟩ := hall u hu huc
      unfold notifyUser
      split
      · rename_i hP
        refine ⟨t, rfl, ?_⟩
        have hrl : rateLimited u t = false := ((depositTarget_iff org t u).mp hP).2
        simp only [rateLimited, htl, decide_eq_false_iff_not, not_lt] at hrl
        omega
      · exact ⟨tl, htl, ht0⟩

/-- Consecutive notifications to the same chat are at least 5000 ms apart,
along any trace of deposit events over a duplicate-free mapping. -/
theorem sendTimes_chain (c : ℤ) :
    ∀ (evs : List (String × ℤ)) (users : List NotifUser),
    (users.map (fun u => u.chatId)).Nodup →
    List.Chain' (fun a b => a + 5000 ≤ b) (sendTimesFor c users evs) := by
  intro evs
  induction evs with
  | nil => intro users _; simp [sendTimesFor, runDeposits]
  | cons ev evs ih =>
    obtain ⟨org, t⟩ := ev
    intro users hnd
    have hnd' : ((handleDeposit users org t).1.map (fun u => u.chatId)).Nodup := by
      rw [handleDeposit_fst_map_chatId]; exact hnd
    rw [sendTimesFor_cons]
    rcases event_sends_for_c c org t users hnd with heq | ⟨heq, hupd⟩
    · rw [heq]
      simpa using ih (handleDeposit users org t).1 hnd'
    · rw [heq]
      simp only [List.map_cons, List.map_nil, List.singleton_append]
      refine List.chain'_cons'.mpr ⟨?_, ih (handleDeposit users org t).1 hnd'⟩
      intro y hy
      refine sendTimes_lower_bound c evs (handleDeposit users org t).1 t ?_ y ?_
      · intro u hu huc
        exact ⟨t, hupd u hu huc, le_refl t⟩
      · exact List.mem_of_mem_head? hy

/-- C9: on a deposit event, a notification goes to chat `c` iff `c` is mapped
to the event's organization and was not notified less than 5000 ms before;
consequently, along any sequence of deposit events (duplicate-free mapping,
as built from the chat-keyed session map), no chat ever receives two deposit
notifications less than 5 seconds apart. -/
theorem C9_depositRateLimit (users : List NotifUser) (org : String) (now : ℤ)
    (evs : List (String × ℤ)) (c : ℤ) :
    (c ∈ (handleDeposit users org now).2 ↔
      ∃ u ∈ users, u.chatId = c ∧ u.org = org ∧ rateLimited u now = false) ∧
    ((users.map (fun u => u.chatId)).Nodup →
      List.Chain' (fun a b => a + 5000 ≤ b) (sendTimesFor c users evs)) :=
  ⟨mem_handleDeposit_sends users org now c, fun h => sendTimes_chain c evs users h⟩

/-- Concrete instantiation of `C9_depositRateLimit`: three deposits for the
same organization at times 1000, 4000 and 7000 notify the mapped chat at
1000 and 7000 only — the event 3 seconds after the first is skipped. -/
theorem C9_depositRateLimit_witness :
    (5 ∈ (handleDeposit [{ chatId := 5, org := "o", lastNotified := none }] "o" 1000).2 ↔
      ∃ u ∈ [({ chatId := 5, org := "o", lastNotified := none } : NotifUser)],
        u.chatId = 5 ∧ u.org = "o" ∧ rateLimited u 1000 = false) ∧
    List.Chain' (fun a b => a + 5000 ≤ b)
      (sendTimesFor 5 [{ chatId := 5, org := "o", lastNotified := none }]
        [("o", 1000), ("o", 4000), ("o", 7000)]) ∧
    sendTimesFor 5 [{ chatId := 5, org := "o", lastNotified := none }]
      [("o", 1000), ("o", 4000), ("o", 7000)] = [1000, 7000] := by
  refine ⟨(C9_depositRateLimit [{ chatId := 5, org := "o", lastNotified := none }]
      "o" 1000 [] 5).1,
    (C9_depositRateLimit [{ chatId := 5, org := "o", lastNotified := none }] "o" 1000
      [("o", 1000), ("o", 4000), ("o", 7000)] 5).2 (by decide), by decide⟩

/-! ### C5: step-handler dichotomy -/

/-- C5: for every registered step handler and every chat in that handler's
state (with the step's preconditions `envReady` in force), an input failing
the step's validation leaves the chat's state unchanged (the handler never
calls `setState`) and sends a corrective re-prompt, while an input passing
validation sets the state to exactly the next step of that flow's sequence
(e.g. login: awaiting-email to awaiting-OTP). -/
theorem C5_stepDichotomy (env : Env) (chatId : ℤ) (s : ConversationState)
    (ctx : TransactionContext) (text : String)
    (h : Env → ℤ → TransactionContext → String → StepResult)
    (hreg : registeredHandler s = some h) (hready : envReady env s ctx) :
    (¬ stepValid env s ctx text →
      (h env chatId ctx text).state = none ∧
      isCorrective (h env chatId ctx text).reply = true) ∧
    (stepValid env s ctx text →
      (h env chatId ctx text).state = some (nextStep s)) := by
  cases s <;> simp only [registeredHandler] at hreg <;>
    try exact Option.noConfusion hreg
  case WAITING_FOR_EMAIL =>
    obtain rfl : _ = h := Option.some.inj hreg
    simp only [envReady] at hready
    constructor
    · intro hnv
      have hc : jsContainsChar (jsTrim text) '@' = false := by
        simpa [stepValid] using hnv
      refine ⟨?_, ?_⟩ <;> simp [handleEmailInput, hc, isCorrective]
    · intro hv
      simp only [stepValid] at hv
      simp [handleEmailInput, hv, hready, nextStep]
  case WAITING_FOR_OTP =>
    obtain rfl : _ = h := Option.some.inj hreg
    constructor
    · intro hnv
      simp only [stepValid] at hnv
      by_cases hA : jsTrim text ≠ "" ∧ (jsTrim text).data.all Char.isDigit = true
      · have hB : env.authUser (jsTrim text) = none := by
          rcases he : env.authUser (jsTrim text) with _ | u
          · rfl
          · exact absurd ⟨hA, by simp [he]⟩ hnv
        refine ⟨?_, ?_⟩ <;> simp [handleOtpInput, hA, hB, isCorrective]
      · constructor
        · simp only [handleOtpInput]
          rw [if_pos hA]
        · simp only [handleOtpInput]
          rw [if_pos hA]
          rfl
    · rintro ⟨hA, hB⟩
      obtain ⟨u, hu⟩ := Option.isSome_iff_exists.mp hB
      simp [handleOtpInput, hA, hu, nextStep]
  case WAITING_FOR_RECIPIENT_EMAIL =>
    obtain rfl : _ = h := Option.some.inj hreg
    constructor
    · intro hnv
      simp only [stepValid] at hnv
      by_cases hA : jsContainsChar (jsTrim text) '@' = true
      · have hB : emailRegexOk (jsTrim text) = false := by
          rcases hb : emailRegexOk (jsTrim text)
          · rfl
          · exact absurd ⟨hA, hb⟩ hnv
        refine ⟨?_, ?_⟩ <;> simp [handleRecipientEmailInput, hA, hB, isCorrective]
      · have hA' : jsContainsChar (jsTrim text) '@' = false := by simpa using hA
        refine ⟨?_, ?_⟩ <;> simp [handleRecipientEmailInput, hA', isCorrective]
    · rintro ⟨hA, hB⟩
      simp [handleRecipientEmailInput, hA, hB, nextStep]
  case WAITING_FOR_SEND_AMOUNT =>
    obtain rfl : _ = h := Option.some.inj hreg
    obtain ⟨r, hr⟩ := hready
    constructor
    · intro hnv
      simp only [stepValid] at hnv
      by_cases h1 : jsNanOrNonPos (jsParseFloat (jsTrim text)) = true
      · refine ⟨?_, ?_⟩ <;> simp [handleSendAmountInput, h1, isCorrective]
      · have h1' : jsNanOrNonPos (jsParseFloat (jsTrim text)) = false := by simpa using h1
        by_cases h2 : jsGt (jsParseFloat (jsTrim text)) 10000 = true
        · refine ⟨?_, ?_⟩ <;> simp [handleSendAmountInput, h1', h2, isCorrective]
        · have h2' : jsGt (jsParseFloat (jsTrim text)) 10000 = false := by simpa using h2
          have h3 : (validateMinimumAmount env.minimums (jsTrim text) .email none).1 = false := by
            rcases h3 : (validateMinimumAmount env.minimums (jsTrim text) .email none).1
            · rfl
            · exact absurd ⟨h1', h2', h3⟩ hnv
          refine ⟨?_, ?_⟩ <;> simp [handleSendAmountInput, h1', h2', hr, h3, isCorrective]
    · rintro ⟨h1, h2, h3⟩
      simp [handleSendAmountInput, h1, h2, hr, h3, nextStep]
  case WAITING_FOR_WALLET_ADDRESS =>
    obtain rfl : _ = h := Option.some.inj hreg
    constructor
    · intro hnv
      simp only [stepValid, not_not] at hnv
      refine ⟨?_, ?_⟩ <;> simp [handleWalletAddressInput, hnv, isCorrective]
    · intro hv
      simp only [stepValid] at hv
      simp [handleWalletAddressInput, hv, nextStep]
  case WAITING_FOR_WALLET_AMOUNT =>
    obtain rfl : _ = h := Option.some.inj hreg
    obtain ⟨⟨w, hw⟩, ⟨n, hn⟩⟩ := hready
    constructor
    · intro hnv
      simp only [stepValid] at hnv
      by_cases h1 : jsNanOrNonPos (jsParseFloat (jsTrim text)) = true
      · refine ⟨?_, ?_⟩ <;> simp [handleWalletAmountInput, h1, isCorrective]
      · have h1' : jsNanOrNonPos (jsParseFloat (jsTrim text)) = false := by simpa using h1
        by_cases h2 : jsGt (jsParseFloat (jsTrim text)) 10000 = true
        · refine ⟨?_, ?_⟩ <;> simp [handleWalletAmountInput, h1', h2, isCorrective]
        · have h2' : jsGt (jsParseFloat (jsTrim text)) 10000 = false := by simpa using h2
          have h3 : (validateMinimumAmount env.minimums (jsTrim text) .wallet
              (strTruthy ctx.network)).1 = false := by
            rcases h3 : (validateMinimumAmount env.minimums (jsTrim text) .wallet
                (strTruthy ctx.network)).1
            · rfl
            · exact absurd ⟨h1', h2', h3⟩ hnv
          rw [hn] at h3
          refine ⟨?_, ?_⟩ <;> simp [handleWalletAmountInput, h1', h2', hw, hn, h3, isCorrective]
    · rintro ⟨h1, h2, h3⟩
      rw [hn] at h3
      simp [handleWalletAmountInput, h1, h2, hw, hn, h3, nextStep]
  case WAITING_FOR_EXTERNAL_WALLET =>
    obtain rfl : _ = h := Option.some.inj hreg
    constructor
    · intro hnv
      simp only [stepValid, not_not] at hnv
      refine ⟨?_, ?_⟩ <;> simp [handleExternalWalletInput, hnv, isCorrective]
    · intro hv
      simp only [stepValid] at hv
      simp [handleExternalWalletInput, hv, nextStep]
  case WAITING_FOR_EXTERNAL_WALLET_AMOUNT =>
    obtain rfl : _ = h := Option.some.inj hreg
    obtain ⟨⟨w, hw⟩, ⟨n, hn⟩, ⟨b, bs, hb⟩⟩ := hready
    have htb : totalBalanceOf env = jsSumBalances (b :: bs) := by
      simp [totalBalanceOf, hb]
    constructor
    · intro hnv
      simp only [stepValid] at hnv
      by_cases h1 : jsNanOrNonPos (jsParseFloat (jsTrim text)) = true
      · refine ⟨?_, ?_⟩ <;> simp [handleExternalWalletAmountInput, h1, isCorrective]
      · have h1' : jsNanOrNonPos (jsParseFloat (jsTrim text)) = false := by simpa using h1
        by_cases h2 : jsLtOO (jsSumBalances (b :: bs)) (jsParseFloat (jsTrim text)) = true
        · refine ⟨?_, ?_⟩ <;>
            simp [handleExternalWalletAmountInput, h1', hw, hn, hb, h2, isCorrective]
        · have h2' : jsLtOO (jsSumBalances (b :: bs)) (jsParseFloat (jsTrim text)) = false := by
            simpa using h2
          by_cases h3 : (validateMinimumAmount env.minimums (jsTrim text) .wallet
              (some n)).1 = true
          · have h4 : jsLtOO (jsSumBalances (b :: bs))
                (jsAdd (jsParseFloat (jsTrim text))
                  (calculateFee env .wallet (some n) none)) = true := by
              rcases h4 : jsLtOO (jsSumBalances (b :: bs))
                  (jsAdd (jsParseFloat (jsTrim text))
                    (calculateFee env .wallet (some n) none))
              · exact absurd ⟨h1', htb ▸ h2', by rwa [hn], by rw [htb, hn]; exact h4⟩ hnv
              · rfl
            refine ⟨?_, ?_⟩ <;>
              simp [handleExternalWalletAmountInput, h1', hw, hn, hb, h2', h3, h4,
                isCorrective]
          · have h3' : (validateMinimumAmount env.minimums (jsTrim text) .wallet
                (some n)).1 = false := by simpa using h3
            refine ⟨?_, ?_⟩ <;>
              simp [handleExternalWalletAmountInput, h1', hw, hn, hb, h2', h3',
                isCorrective]
    · rintro ⟨h1, h2, h3, h4⟩
      rw [htb] at h2 h4
      rw [hn] at h3 h4
      simp [handleExternalWalletAmountInput, h1, hw, hn, hb, h2, h3, h4, nextStep]
  case WAITING_FOR_WITHDRAWAL_FINAL_CONFIRMATION =>
    obtain rfl : _ = h := Option.some.inj hreg
    obtain ⟨⟨w, hw⟩, ⟨a, ha⟩, ⟨n, hn⟩⟩ := hready
    constructor
    · intro hnv
      simp only [stepValid] at hnv
      push_neg at hnv
      obtain ⟨hc1, hc2⟩ := hnv
      refine ⟨?_, ?_⟩ <;>
        simp [handleWithdrawalFinalConfirmation, hc1, hc2, isCorrective]
    · intro hv
      simp only [stepValid] at hv
      rcases hv with hc | hc
      · rcases hres : sendFundsToWallet env chatId w a n with _ | e
        all_goals
          simp [handleWithdrawalFinalConfirmation, hc, hw, ha, hn, hres, nextStep]
      · by_cases hcfm : jsToUpper (jsTrim text) = "CONFIRM"
        · rcases hres : sendFundsToWallet env chatId w a n with _ | e
          all_goals
            simp [handleWithdrawalFinalConfirmation, hcfm, hw, ha, hn, hres, nextStep]
        · simp [handleWithdrawalFinalConfirmation, hcfm, hc, nextStep]

/-- Concrete instantiation of `C5_stepDichotomy` at the login email step: a
malformed email leaves the state untouched with a corrective reply; a valid
email advances awaiting-email to awaiting-OTP. -/
theorem C5_stepDichotomy_witness :
    (¬ stepValid {} .WAITING_FOR_EMAIL {} "not-an-email" ∧
      (handleEmailInput {} {} "not-an-email").state = none ∧
      isCorrective (handleEmailInput {} {} "not-an-email").reply = true) ∧
    (stepValid {} .WAITING_FOR_EMAIL {} "user@example.com" ∧
      (handleEmailInput {} {} "user@example.com").state =
        some (nextStep .WAITING_FOR_EMAIL)) := by
  have hbad := (C5_stepDichotomy {} 5 .WAITING_FOR_EMAIL {} "not-an-email"
    (fun env _ ctx text => handleEmailInput env ctx text) rfl rfl).1
    (by simp only [stepValid]; decide)
  have hgood := (C5_stepDichotomy {} 5 .WAITING_FOR_EMAIL {} "user@example.com"
    (fun env _ ctx text => handleEmailInput env ctx text) rfl rfl).2
    (by simp only [stepValid]; decide)
  exact ⟨⟨by simp only [stepValid]; decide, hbad.1, hbad.2⟩,
    ⟨by simp only [stepValid]; decide, hgood⟩⟩

end CopperxBot
